import Mathlib

/-!
# Face coordinate functions for DG fluxes (`fem/dgfacefunctions.cpp`)

A shallow embedding of the functions of `fem/dgfacefunctions.cpp` and theorems
about them.

Conventions of the embedding.

* A C++ `int` is a Lean `Int`.  The only arithmetic of the file is `/ 64`,
  `% 64`, `/ 2`, `% 2` and products of entries in `{-1, 0, 1}`, none of which
  can overflow, so no wrap-around is modelled.  `/` and `%` truncate towards
  zero (`Int.tdiv`, `Int.tmod`).
* A function that writes through a reference parameter takes the prior value
  of that parameter and returns the new one.
* A computation that aborts returns `Except.error` with the reason.
-/

namespace mfem

/-- Reasons for which a computation does not return normally. -/
inductive Failure where
  /-- The function `mfem_error` was called. -/
  | mfemError
  /-- The condition of an `MFEM_ASSERT` was false. -/
  | assertFailed
  /-- An element outside the bounds of a container was accessed. -/
  | outOfBounds
  /-- The step budget of a modelled `while` loop was used up (never produced by
  the budgets used below, see `whileScan_fuel`). -/
  | outOfFuel
deriving DecidableEq

deriving instance DecidableEq for Except

/-- Modelled from the spec: `mfem_error`, defined outside `dgfacefunctions.cpp`,
reports the error and fails the computation (the spec's `InvalidFaceId` and
`UnsupportedRotation` failures); it does not return to its caller. -/
def mfem_error {α : Type} : Except Failure α :=
  Except.error Failure.mfemError

/-- Modelled from the spec: the macro `MFEM_ASSERT`, defined outside
`dgfacefunctions.cpp`, is a checked validation: the computation goes on when the
condition holds and fails otherwise (the spec's `MalformedOrientation`). -/
def MFEM_ASSERT (cond : Bool) : Except Failure Unit :=
  if cond then Except.ok () else Except.error Failure.assertFailed

/-- Modelled from the spec: the container `IntMatrix`, declared outside
`dgfacefunctions.cpp`, is a dense integer matrix with indexed element access
`m(i,j)` (row `i`, column `j`, as the `SetCol` comments of `InitFaceCoord2D`
fix it).  `entry` is only meaningful at `i < height`, `j < width`. -/
structure IntMatrix where
  /-- Number of rows. -/
  height : Nat
  /-- Number of columns. -/
  width : Nat
  /-- Entries, by row and column. -/
  entry : Nat → Nat → Int

namespace IntMatrix

/-- Whether `(i, j)` is a position of the matrix. -/
def inRange (m : IntMatrix) (i j : Int) : Bool :=
  decide (0 ≤ i) && decide (i < m.height) && decide (0 ≤ j) && decide (j < m.width)

/-- Reading `m(i,j)`; an access outside the matrix is a failure. -/
def read (m : IntMatrix) (i j : Int) : Except Failure Int :=
  if m.inRange i j then Except.ok (m.entry i.toNat j.toNat)
  else Except.error Failure.outOfBounds

/-- The assignment `m(i,j) = v`; an access outside the matrix is a failure. -/
def write (m : IntMatrix) (i j : Int) (v : Int) : Except Failure IntMatrix :=
  if m.inRange i j then
    Except.ok { m with entry := fun a b => if a = i.toNat ∧ b = j.toNat then v else m.entry a b }
  else Except.error Failure.outOfBounds

/-- The call `m.Zero()`: every entry becomes `0`, the size is kept. -/
def Zero (m : IntMatrix) : IntMatrix :=
  { m with entry := fun _ _ => 0 }

/-- The entries of the matrix, row by row. -/
def toRows (m : IntMatrix) : List (List Int) :=
  (List.range m.height).map (fun i => (List.range m.width).map (fun j => m.entry i j))

/-- The square matrix of size `n` with the given rows (entries outside the rows
are `0`). -/
def ofRows (n : Nat) (rows : List (List Int)) : IntMatrix :=
  { height := n, width := n, entry := fun i j => (rows.getD i []).getD j 0 }

end IntMatrix

/-- The vector of pairs `std::vector<std::pair<int,int>>`. -/
abbrev CoordMap := List (Int × Int)

/-- The call `map.resize(n)`: the first `n` elements are kept and the vector is
padded with value-initialised pairs `(0, 0)`. -/
def resize (map : CoordMap) (n : Nat) : CoordMap :=
  map.take n ++ List.replicate (n - map.length) (0, 0)

/-- Reading `map[i]`; an access outside the vector is a failure. -/
def vecAt (map : CoordMap) (i : Nat) : Except Failure (Int × Int) :=
  match map.get? i with
  | some p => Except.ok p
  | none => Except.error Failure.outOfBounds

/-- The assignment `map[i] = p`; an access outside the vector is a failure. -/
def vecSet (map : CoordMap) (i : Nat) (p : Int × Int) : Except Failure CoordMap :=
  if i < map.length then Except.ok (map.set i p) else Except.error Failure.outOfBounds

/-- The function `InitFaceCoord2D(face_id, base)`. -/
def InitFaceCoord2D (face_id : Int) (base : IntMatrix) : Except Failure IntMatrix := do
  let base := base.Zero
  if face_id = 0 then
    let base ← base.write 0 0 1
    base.write 1 1 (-1)
  else if face_id = 1 then
    let base ← base.write 1 0 1
    base.write 0 1 1
  else if face_id = 2 then
    let base ← base.write 0 0 (-1)
    base.write 1 1 1
  else if face_id = 3 then
    let base ← base.write 1 0 (-1)
    base.write 0 1 1
  else
    mfem_error

/-- The function `InitFaceCoord3D(face_id, base)`. -/
def InitFaceCoord3D (face_id : Int) (base : IntMatrix) : Except Failure IntMatrix := do
  let base := base.Zero
  if face_id = 0 then
    let base ← base.write 0 0 1
    let base ← base.write 1 1 (-1)
    base.write 2 2 (-1)
  else if face_id = 1 then
    let base ← base.write 0 0 1
    let base ← base.write 2 1 1
    base.write 1 2 (-1)
  else if face_id = 2 then
    let base ← base.write 1 0 1
    let base ← base.write 2 1 1
    base.write 0 2 1
  else if face_id = 3 then
    let base ← base.write 0 0 (-1)
    let base ← base.write 2 1 1
    base.write 1 2 1
  else if face_id = 4 then
    let base ← base.write 1 0 (-1)
    let base ← base.write 2 1 1
    base.write 0 2 (-1)
  else if face_id = 5 then
    let base ← base.write 0 0 1
    let base ← base.write 1 1 1
    base.write 2 2 1
  else
    mfem_error

/-- The function `GetLocalCoordMap2D(map, nb_rot)`; `nb_rot` is not used. -/
def GetLocalCoordMap2D (map : CoordMap) (_nb_rot : Int) : Except Failure CoordMap := do
  let map := resize map 2
  let map ← vecSet map 0 (-1, 1)
  vecSet map 1 (-1, 2)

/-- The function `GetLocalCoordMap3D(map, nb_rot)`. -/
def GetLocalCoordMap3D (map : CoordMap) (nb_rot : Int) : Except Failure CoordMap := do
  let map := resize map 3
  let map ← vecSet map 2 (-1, 3)
  if nb_rot = 0 then
    let map ← vecSet map 0 (1, 1)
    vecSet map 1 (1, 0)
  else if nb_rot = 1 then
    let map ← vecSet map 0 (-1, 0)
    vecSet map 1 (1, 1)
  else if nb_rot = 2 then
    let map ← vecSet map 0 (-1, 1)
    vecSet map 1 (-1, 0)
  else if nb_rot = 3 then
    let map ← vecSet map 0 (1, 0)
    vecSet map 1 (-1, 1)
  else
    mfem_error

/-- The loop `while (base_K2(j,i)!=0) i++;` of `GetChangeOfBasis`, started at
`i`, with a step budget; the result is the value of `i` when the loop ends. -/
def whileScan (base_K2 : IntMatrix) (j : Nat) : Nat → Nat → Except Failure Nat
  | 0, _ => Except.error Failure.outOfFuel
  | fuel + 1, i => do
    let v ← base_K2.read j i
    if v ≠ 0 then whileScan base_K2 j fuel (i + 1) else Except.ok i

/-- The body of the outer loop of `GetChangeOfBasis` for one `j`. -/
def changeOfBasisColumn (base_K1 base_K2 : IntMatrix) (map : CoordMap) (dim : Nat)
    (P : IntMatrix) (j : Nat) : Except Failure IntMatrix := do
  let i ← whileScan base_K2 j (base_K2.width + 1) 0
  let p ← vecAt map i
  let coeff := p.1
  let ind := p.2
  (List.range dim).foldlM
    (fun (P : IntMatrix) (k : Nat) => do
      let v ← base_K1.read k ind
      P.write k j (coeff * v)) P

/-- The function `GetChangeOfBasis(base_K1, base_K2, map, P)`. -/
def GetChangeOfBasis (base_K1 base_K2 : IntMatrix) (map : CoordMap) (P : IntMatrix) :
    Except Failure IntMatrix :=
  let dim := map.length
  (List.range dim).foldlM (changeOfBasisColumn base_K1 base_K2 map dim) P

/-- The function `GetIdRotInfo(face_info, face_id, nb_rot)`; the result is the
pair `(face_id, nb_rot)`. -/
def GetIdRotInfo (face_info : Int) : Except Failure (Int × Int) := do
  let orientation := face_info.tmod 64
  let face_id := face_info.tdiv 64
  MFEM_ASSERT (decide (orientation.tmod 2 = 0))
  let nb_rot := orientation.tdiv 2
  pure (face_id, nb_rot)

/-- Modelled from the spec: the container `Vector`, declared outside
`dgfacefunctions.cpp`, is a vector with resizing (`SetSize`) and indexed element
access `v(i)`.  Its elements are floating-point numbers in the library; the only
values stored here are the literals `0` and `1`, kept as integers.  `entry` is
only meaningful at `i < size`. -/
structure Vector where
  /-- Number of components. -/
  size : Nat
  /-- Components. -/
  entry : Nat → Int

namespace Vector

/-- The call `v.SetSize(n)`: the vector has `n` components afterwards. -/
def SetSize (v : Vector) (n : Nat) : Vector :=
  { v with size := n }

/-- The assignment `v(i) = x`; an access outside the vector is a failure. -/
def write (v : Vector) (i : Int) (x : Int) : Except Failure Vector :=
  if 0 ≤ i ∧ i < v.size then
    Except.ok { v with entry := fun a => if a = i.toNat then x else v.entry a }
  else Except.error Failure.outOfBounds

/-- The components of the vector. -/
def toList (v : Vector) : List Int :=
  (List.range v.size).map v.entry

end Vector

/-- The function `getBaseVector2D(e1, e2)`; the result is the pair `(e1, e2)`. -/
def getBaseVector2D (e1 e2 : Vector) : Except Failure (Vector × Vector) := do
  let e1 := e1.SetSize 2
  let e1 ← e1.write 0 1
  let e1 ← e1.write 1 0
  let e2 := e2.SetSize 2
  let e2 ← e2.write 0 0
  let e2 ← e2.write 1 1
  pure (e1, e2)

/-- The function `getBaseVector3D(e1, e2, e3)`; the result is the triple
`(e1, e2, e3)`. -/
def getBaseVector3D (e1 e2 e3 : Vector) : Except Failure (Vector × Vector × Vector) := do
  let e1 := e1.SetSize 2
  let e1 ← e1.write 0 1
  let e1 ← e1.write 1 0
  let e1 ← e1.write 2 0
  let e2 := e2.SetSize 2
  let e2 ← e2.write 0 0
  let e2 ← e2.write 1 1
  let e2 ← e2.write 2 0
  let e3 := e3.SetSize 2
  let e3 ← e3.write 0 0
  let e3 ← e3.write 1 0
  let e3 ← e3.write 2 1
  pure (e1, e2, e3)

/-! ## Definitions used to state the properties -/

/-- A fresh `n × n` matrix, as a caller allocates it before passing it as an
output parameter (its entries are `0` here; the functions below do not depend
on them). -/
def freshMatrix (n : Nat) : IntMatrix :=
  IntMatrix.ofRows n []

/-- The change of basis between two faces of the reference cube for a given
coordinate map: both face bases come from `InitFaceCoord3D`. -/
def faceChangeOfBasis (f1 f2 : Int) (map : CoordMap) : Except Failure IntMatrix := do
  let base_K1 ← InitFaceCoord3D f1 (freshMatrix 3)
  let base_K2 ← InitFaceCoord3D f2 (freshMatrix 3)
  GetChangeOfBasis base_K1 base_K2 map (freshMatrix 3)

/-- The change of basis between two faces of the reference cube for a rotation
count: the coordinate map comes from `GetLocalCoordMap3D`. -/
def faceChangeOfBasis3D (f1 f2 nb_rot : Int) : Except Failure IntMatrix := do
  let map ← GetLocalCoordMap3D [] nb_rot
  faceChangeOfBasis f1 f2 map

/-- Column `j` of `m` has, among its first `d` rows, exactly one nonzero entry,
and this entry is `1` or `-1`. -/
def ColumnIsSignedUnit (d : Nat) (m : IntMatrix) (j : Nat) : Prop :=
  ∃ i < d, (m.entry i j = 1 ∨ m.entry i j = -1) ∧ ∀ k < d, k ≠ i → m.entry k j = 0

/-- Row `i` of `m` has, among its first `d` columns, exactly one nonzero entry,
and this entry is `1` or `-1`. -/
def RowIsSignedUnit (d : Nat) (m : IntMatrix) (i : Nat) : Prop :=
  ∃ j < d, (m.entry i j = 1 ∨ m.entry i j = -1) ∧ ∀ k < d, k ≠ j → m.entry i k = 0

/-- The matrix is `d × d` and each of its columns holds exactly one nonzero
entry, equal to `1` or `-1`. -/
def IsFaceBasis (d : Nat) (m : IntMatrix) : Prop :=
  m.height = d ∧ m.width = d ∧ ∀ j < d, ColumnIsSignedUnit d m j

/-- The matrix is a `d × d` signed permutation matrix: exactly one nonzero
entry, equal to `1` or `-1`, in every row and in every column. -/
def IsSignedPermutation (d : Nat) (m : IntMatrix) : Prop :=
  IsFaceBasis d m ∧ ∀ i < d, RowIsSignedUnit d m i

instance (d : Nat) (m : IntMatrix) (j : Nat) : Decidable (ColumnIsSignedUnit d m j) := by
  unfold ColumnIsSignedUnit; infer_instance

instance (d : Nat) (m : IntMatrix) (i : Nat) : Decidable (RowIsSignedUnit d m i) := by
  unfold RowIsSignedUnit; infer_instance

instance (d : Nat) (m : IntMatrix) : Decidable (IsFaceBasis d m) := by
  unfold IsFaceBasis; infer_instance

instance (d : Nat) (m : IntMatrix) : Decidable (IsSignedPermutation d m) := by
  unfold IsSignedPermutation; infer_instance

/-- The matrix product `A * B`. -/
def matMul (A B : IntMatrix) : IntMatrix :=
  { height := A.height
    width := B.width
    entry := fun i j => ((List.range A.width).map (fun k => A.entry i k * B.entry k j)).sum }

/-- The reference definition of the spec for one column of the change of basis:
locate the row index `i` in column `j` of `base_K2` that holds the nonzero
entry, look up `map[i]` to get `(coeff, ind)`, and take `coeff` times column
`ind` of `base_K1`.  There is no result when the column has no nonzero entry
or when `map[i]` or column `ind` does not exist. -/
def specColumn (d : Nat) (base_K1 base_K2 : IntMatrix) (map : CoordMap) (j : Nat) :
    Option (List Int) :=
  match (List.range d).find? (fun i => decide (base_K2.entry i j ≠ 0)) with
  | none => none
  | some i =>
    match map.get? i with
    | none => none
    | some (coeff, ind) =>
      if 0 ≤ ind ∧ ind < d then
        some ((List.range d).map (fun k => coeff * base_K1.entry k ind.toNat))
      else none

/-- The reference definition of the spec for the change of basis of dimension
`d`: the list of the columns of `P`. -/
def specChangeOfBasisColumns (d : Nat) (base_K1 base_K2 : IntMatrix) (map : CoordMap) :
    Option (List (List Int)) :=
  (List.range d).mapM (specColumn d base_K1 base_K2 map)

/-- The columns of a matrix (the transpose of `toRows`). -/
def IntMatrix.toColumns (m : IntMatrix) : List (List Int) :=
  (List.range m.width).map (fun j => (List.range m.height).map (fun i => m.entry i j))

/-- A well-formed coordinate map of dimension `d`: exactly `d` entries
`(sign, targetIndex)`, each with `sign` equal to `1` or `-1` and `targetIndex`
in `[0, d)`. -/
def IsWellFormedCoordMap (d : Nat) (map : CoordMap) : Prop :=
  map.length = d ∧ ∀ p ∈ map, (p.1 = 1 ∨ p.1 = -1) ∧ 0 ≤ p.2 ∧ p.2 < d

instance (d : Nat) (map : CoordMap) : Decidable (IsWellFormedCoordMap d map) := by
  unfold IsWellFormedCoordMap; infer_instance

/-- The matrix is `d × d` and each of its columns holds exactly one nonzero
entry (of any value). -/
def HasOneNonzeroPerColumn (d : Nat) (m : IntMatrix) : Prop :=
  m.height = d ∧ m.width = d ∧
    ∀ j < d, ∃ i < d, m.entry i j ≠ 0 ∧ ∀ k < d, k ≠ i → m.entry k j = 0

/-- Each of the first `d` rows of the matrix holds, among its first `d` columns,
exactly one nonzero entry (of any value). -/
def HasOneNonzeroPerRow (d : Nat) (m : IntMatrix) : Prop :=
  ∀ i < d, ∃ j < d, m.entry i j ≠ 0 ∧ ∀ k < d, k ≠ j → m.entry i k = 0

instance (d : Nat) (m : IntMatrix) : Decidable (HasOneNonzeroPerColumn d m) := by
  unfold HasOneNonzeroPerColumn; infer_instance

instance (d : Nat) (m : IntMatrix) : Decidable (HasOneNonzeroPerRow d m) := by
  unfold HasOneNonzeroPerRow; infer_instance

/-- The determinant of the upper left `3 × 3` block of a matrix. -/
def det3 (m : IntMatrix) : Int :=
  m.entry 0 0 * (m.entry 1 1 * m.entry 2 2 - m.entry 1 2 * m.entry 2 1)
    - m.entry 0 1 * (m.entry 1 0 * m.entry 2 2 - m.entry 1 2 * m.entry 2 0)
    + m.entry 0 2 * (m.entry 1 0 * m.entry 2 1 - m.entry 1 1 * m.entry 2 0)

/-- The `2 × 2` matrix `M` of the tangential part of a coordinate map: for the
first two entries `(coeff_i, ind_i)` of the map, `M[i][ind_i] = coeff_i`, and
the other entries are `0`. -/
def tangentialMatrix (map : CoordMap) : IntMatrix :=
  { height := 2
    width := 2
    entry := fun i j =>
      match map.get? i with
      | some (coeff, ind) => if ind = (j : Int) then coeff else 0
      | none => 0 }

/-- The quarter turn `Q = [[0,-1],[1,0]]`. -/
def quarterTurn : IntMatrix :=
  IntMatrix.ofRows 2 [[0, -1], [1, 0]]

/-- The last column of a matrix. -/
def IntMatrix.lastColumn (m : IntMatrix) : List Int :=
  (List.range m.height).map (fun i => m.entry i (m.width - 1))


/-! ## The step budget of the scan is never used up -/

theorem whileScan_fuel (base_K2 : IntMatrix) (j : Nat) (fuel i : Nat)
    (hi : i ≤ base_K2.width) (hfuel : base_K2.width < fuel + i) :
    whileScan base_K2 j fuel i ≠ Except.error Failure.outOfFuel := by
  induction fuel generalizing i with
  | zero => omega
  | succ n ih =>
    unfold whileScan
    by_cases hr : base_K2.inRange j i = true
    · have hlt : i < base_K2.width := by
        simp [IntMatrix.inRange] at hr
        omega
      simp only [IntMatrix.read, hr, if_true]
      by_cases hv : base_K2.entry j i = 0
      · simp [bind, Except.bind, hv]
      · have := ih (i + 1) (by omega) (by omega)
        simpa [bind, Except.bind, hv] using this
    · simp [IntMatrix.read, hr, bind, Except.bind]


/-- Any step that never fails for the reason `e` gives a loop that never fails
for the reason `e`. -/
theorem foldlM_ne_error {α β : Type} (e : Failure) (f : β → α → Except Failure β)
    (h : ∀ b a, f b a ≠ Except.error e) (l : List α) (b : β) :
    l.foldlM f b ≠ Except.error e := by
  induction l generalizing b with
  | nil => simp [List.foldlM, pure, Except.pure]
  | cons a l ih =>
    simp only [List.foldlM, bind, Except.bind]
    cases hfa : f b a with
    | error e2 =>
      intro hc
      exact h b a (by rw [hfa]; exact hc)
    | ok b2 => exact ih b2

/-- The function `GetChangeOfBasis` does not depend on the step budget of its
scan: it never ends for lack of budget. -/
theorem GetChangeOfBasis_fuel (base_K1 base_K2 : IntMatrix) (map : CoordMap) (P : IntMatrix) :
    GetChangeOfBasis base_K1 base_K2 map P ≠ Except.error Failure.outOfFuel := by
  unfold GetChangeOfBasis
  apply foldlM_ne_error
  intro P j
  unfold changeOfBasisColumn
  have hscan := whileScan_fuel base_K2 j (base_K2.width + 1) 0 (Nat.zero_le _) (by omega)
  cases hs : whileScan base_K2 j (base_K2.width + 1) 0 with
  | error e2 =>
    intro hc
    apply hscan
    rw [hs]
    simpa [bind, Except.bind] using hc
  | ok i =>
    cases hv : vecAt map i with
    | error e2 =>
      have he : e2 = Failure.outOfBounds := by
        unfold vecAt at hv
        split at hv <;> simp at hv
        exact hv.symm
      subst he
      simp [bind, Except.bind, hv]
    | ok p =>
      simp only [bind, Except.bind, hv]
      apply foldlM_ne_error
      intro P2 k
      unfold IntMatrix.read IntMatrix.write
      by_cases h1 : base_K1.inRange k p.2 = true <;>
        by_cases h2 : P2.inRange k j = true <;> simp [h1, h2, bind, Except.bind]

/-! ## `GetIdRotInfo` -/

/-- C5: decoding undoes encoding. For every `face_id ≥ 0` and every rotation
count `rot` in `[0,4)`, `GetIdRotInfo` applied to `face_id*64 + 2*rot` succeeds
and returns exactly `(face_id, rot)`. -/
theorem GetIdRotInfo_encode (face_id rot : Int) (hf : 0 ≤ face_id) (h0 : 0 ≤ rot)
    (h4 : rot < 4) :
    GetIdRotInfo (face_id * 64 + 2 * rot) = Except.ok (face_id, rot) := by
  have hp : (0 : Int) ≤ face_id * 64 + 2 * rot := by omega
  have hm : (face_id * 64 + 2 * rot).tmod 64 = 2 * rot := by
    rw [Int.tmod_eq_emod hp (by decide)]; omega
  have hd : (face_id * 64 + 2 * rot).tdiv 64 = face_id := by
    rw [Int.tdiv_eq_ediv hp (by decide)]; omega
  have hm2 : (2 * rot).tmod 2 = 0 := by
    rw [Int.tmod_eq_emod (by omega) (by decide)]; omega
  have hd2 : (2 * rot).tdiv 2 = rot := by
    rw [Int.tdiv_eq_ediv (by omega) (by decide)]; omega
  simp [GetIdRotInfo, MFEM_ASSERT, hm, hd, hm2, hd2, bind, Except.bind, pure, Except.pure]

/-- The theorem `GetIdRotInfo_encode` at `face_id = 3`, `rot = 2`. -/
theorem GetIdRotInfo_encode_witness :
    GetIdRotInfo (3 * 64 + 2 * 2) = Except.ok (3, 2) :=
  GetIdRotInfo_encode 3 2 (by decide) (by decide) (by decide)

/-- C6: `GetIdRotInfo` fails (its assertion fails) if and only if the
orientation `packed % 64` is odd; it returns a result if and only if the
orientation is even; and it fails at `packed = 65`. -/
theorem GetIdRotInfo_fails_iff_odd (packed : Int) :
    (GetIdRotInfo packed = Except.error Failure.assertFailed ↔ Odd (packed.tmod 64)) ∧
    ((∃ r, GetIdRotInfo packed = Except.ok r) ↔ Even (packed.tmod 64)) ∧
    GetIdRotInfo 65 = Except.error Failure.assertFailed := by
  have key : (packed.tmod 64).tmod 2 = 0 ↔ Even (packed.tmod 64) := by
    rw [even_iff_two_dvd, Int.dvd_iff_tmod_eq_zero]
  refine ⟨?_, ?_, by decide⟩
  · rw [← Int.not_even_iff_odd, ← key]
    unfold GetIdRotInfo MFEM_ASSERT
    by_cases h : (packed.tmod 64).tmod 2 = 0 <;>
      simp [h, bind, Except.bind, pure, Except.pure]
  · rw [← key]
    unfold GetIdRotInfo MFEM_ASSERT
    by_cases h : (packed.tmod 64).tmod 2 = 0 <;>
      simp [h, bind, Except.bind, pure, Except.pure]


/-! ## The face bases -/

/-- C7: for every valid face id in 2D (`0..3`) and in 3D (`0..5`), and whatever
the prior entries of the output matrix (of the size of the dimension), the
function returns a matrix with exactly one nonzero entry in each column, that
entry being `1` or `-1` and every other entry `0`. -/
theorem InitFaceCoord_isFaceBasis (base2 base3 : IntMatrix)
    (h2 : base2.height = 2 ∧ base2.width = 2) (h3 : base3.height = 3 ∧ base3.width = 3) :
    (∀ face_id : Int, 0 ≤ face_id → face_id < 4 →
      ∃ M, InitFaceCoord2D face_id base2 = Except.ok M ∧ IsFaceBasis 2 M) ∧
    (∀ face_id : Int, 0 ≤ face_id → face_id < 6 →
      ∃ M, InitFaceCoord3D face_id base3 = Except.ok M ∧ IsFaceBasis 3 M) := by
  obtain ⟨hh2, hw2⟩ := h2
  obtain ⟨hh3, hw3⟩ := h3
  constructor
  · intro face_id h0 h4
    have hc : face_id = 0 ∨ face_id = 1 ∨ face_id = 2 ∨ face_id = 3 := by omega
    rcases hc with rfl | rfl | rfl | rfl <;>
      simp [InitFaceCoord2D, IntMatrix.write, IntMatrix.Zero, IntMatrix.inRange, hh2, hw2,
        bind, Except.bind] <;>
      decide
  · intro face_id h0 h6
    have hc : face_id = 0 ∨ face_id = 1 ∨ face_id = 2 ∨ face_id = 3 ∨ face_id = 4 ∨
        face_id = 5 := by omega
    rcases hc with rfl | rfl | rfl | rfl | rfl | rfl <;>
      simp [InitFaceCoord3D, IntMatrix.write, IntMatrix.Zero, IntMatrix.inRange, hh3, hw3,
        bind, Except.bind] <;>
      decide

/-- The theorem `InitFaceCoord_isFaceBasis` at output matrices filled with `7`,
for the faces `2` (2D) and `2` (3D). -/
theorem InitFaceCoord_isFaceBasis_witness :
    (∃ M, InitFaceCoord2D 2 (IntMatrix.ofRows 2 [[7, 7], [7, 7]]) = Except.ok M ∧
      IsFaceBasis 2 M) ∧
    (∃ M, InitFaceCoord3D 2 (IntMatrix.ofRows 3 [[7, 7, 7], [7, 7, 7], [7, 7, 7]]) =
      Except.ok M ∧ IsFaceBasis 3 M) :=
  have h := InitFaceCoord_isFaceBasis (IntMatrix.ofRows 2 [[7, 7], [7, 7]])
    (IntMatrix.ofRows 3 [[7, 7, 7], [7, 7, 7], [7, 7, 7]]) ⟨rfl, rfl⟩ ⟨rfl, rfl⟩
  ⟨h.1 2 (by decide) (by decide), h.2 2 (by decide) (by decide)⟩

/-- C8: the face-basis lookup fails with an error exactly on out-of-range face
ids. `InitFaceCoord2D` calls `mfem_error` if and only if `face_id` is not in
`[0,4)` and returns a matrix if and only if it is; `InitFaceCoord3D` likewise
with `[0,6)`; negative ids fail, `face_id = 4` in 2D and `face_id = 6` in 3D
fail, and no matrix is returned on an out-of-range id. The output matrix has the
size of the dimension. -/
theorem InitFaceCoord_fails_iff (face_id : Int) (base2 base3 : IntMatrix)
    (h2 : base2.height = 2 ∧ base2.width = 2) (h3 : base3.height = 3 ∧ base3.width = 3) :
    ((InitFaceCoord2D face_id base2 = Except.error Failure.mfemError ↔
        ¬ (0 ≤ face_id ∧ face_id < 4)) ∧
      ((∃ M, InitFaceCoord2D face_id base2 = Except.ok M) ↔ (0 ≤ face_id ∧ face_id < 4))) ∧
    ((InitFaceCoord3D face_id base3 = Except.error Failure.mfemError ↔
        ¬ (0 ≤ face_id ∧ face_id < 6)) ∧
      ((∃ M, InitFaceCoord3D face_id base3 = Except.ok M) ↔ (0 ≤ face_id ∧ face_id < 6))) ∧
    InitFaceCoord2D 4 base2 = Except.error Failure.mfemError ∧
    InitFaceCoord3D 6 base3 = Except.error Failure.mfemError := by
  obtain ⟨hh2, hw2⟩ := h2
  obtain ⟨hh3, hw3⟩ := h3
  refine ⟨?_, ?_, ?_, ?_⟩
  · by_cases hr : 0 ≤ face_id ∧ face_id < 4
    · have hc : face_id = 0 ∨ face_id = 1 ∨ face_id = 2 ∨ face_id = 3 := by omega
      rcases hc with rfl | rfl | rfl | rfl <;>
        simp [InitFaceCoord2D, IntMatrix.write, IntMatrix.Zero, IntMatrix.inRange, hh2, hw2,
          bind, Except.bind]
    · have n0 : face_id ≠ 0 := by omega
      have n1 : face_id ≠ 1 := by omega
      have n2 : face_id ≠ 2 := by omega
      have n3 : face_id ≠ 3 := by omega
      simp [InitFaceCoord2D, mfem_error, n0, n1, n2, n3, hr]
  · by_cases hr : 0 ≤ face_id ∧ face_id < 6
    · have hc : face_id = 0 ∨ face_id = 1 ∨ face_id = 2 ∨ face_id = 3 ∨ face_id = 4 ∨
          face_id = 5 := by omega
      rcases hc with rfl | rfl | rfl | rfl | rfl | rfl <;>
        simp [InitFaceCoord3D, IntMatrix.write, IntMatrix.Zero, IntMatrix.inRange, hh3, hw3,
          bind, Except.bind]
    · have n0 : face_id ≠ 0 := by omega
      have n1 : face_id ≠ 1 := by omega
      have n2 : face_id ≠ 2 := by omega
      have n3 : face_id ≠ 3 := by omega
      have n4 : face_id ≠ 4 := by omega
      have n5 : face_id ≠ 5 := by omega
      simp [InitFaceCoord3D, mfem_error, n0, n1, n2, n3, n4, n5, hr]
  · simp [InitFaceCoord2D, mfem_error]
  · simp [InitFaceCoord3D, mfem_error]

/-- The theorem `InitFaceCoord_fails_iff` at `face_id = -1` and fresh output
matrices. -/
theorem InitFaceCoord_fails_iff_witness :
    InitFaceCoord2D (-1) (freshMatrix 2) = Except.error Failure.mfemError ∧
    InitFaceCoord3D (-1) (freshMatrix 3) = Except.error Failure.mfemError ∧
    InitFaceCoord2D 4 (freshMatrix 2) = Except.error Failure.mfemError ∧
    InitFaceCoord3D 6 (freshMatrix 3) = Except.error Failure.mfemError :=
  have h := InitFaceCoord_fails_iff (-1) (freshMatrix 2) (freshMatrix 3) ⟨rfl, rfl⟩ ⟨rfl, rfl⟩
  ⟨h.1.1.2 (by decide), h.2.1.1.2 (by decide), h.2.2.1, h.2.2.2⟩

/-! ## The coordinate maps -/

/-- After `resize(3)` the vector has exactly three elements. -/
theorem resize_three (map : CoordMap) : ∃ a b c, resize map 3 = [a, b, c] := by
  rcases map with _ | ⟨a, _ | ⟨b, _ | ⟨c, rest⟩⟩⟩ <;> simp [resize, List.replicate]

/-- After `resize(2)` the vector has exactly two elements. -/
theorem resize_two (map : CoordMap) : ∃ a b, resize map 2 = [a, b] := by
  rcases map with _ | ⟨a, _ | ⟨b, rest⟩⟩ <;> simp [resize, List.replicate]

/-- The result of `GetLocalCoordMap3D` for the four rotation counts, whatever
the prior content of the vector. -/
theorem GetLocalCoordMap3D_eq (map : CoordMap) :
    GetLocalCoordMap3D map 0 = Except.ok [(1, 1), (1, 0), (-1, 3)] ∧
    GetLocalCoordMap3D map 1 = Except.ok [(-1, 0), (1, 1), (-1, 3)] ∧
    GetLocalCoordMap3D map 2 = Except.ok [(-1, 1), (-1, 0), (-1, 3)] ∧
    GetLocalCoordMap3D map 3 = Except.ok [(1, 0), (-1, 1), (-1, 3)] := by
  obtain ⟨a, b, c, h⟩ := resize_three map
  simp [GetLocalCoordMap3D, vecSet, h, bind, Except.bind]

/-- The result of `GetLocalCoordMap2D`, whatever the rotation count and the
prior content of the vector. -/
theorem GetLocalCoordMap2D_eq (map : CoordMap) (nb_rot : Int) :
    GetLocalCoordMap2D map nb_rot = Except.ok [(-1, 1), (-1, 2)] := by
  obtain ⟨a, b, h⟩ := resize_two map
  simp [GetLocalCoordMap2D, vecSet, h, bind, Except.bind]

/-- C9: for every rotation count `r` in `[0,4)`, the first two entries
`(sign, index)` of `GetLocalCoordMap3D(r)` are those of the table: `r = 0` gives
`[(+1,1),(+1,0)]`, `r = 1` gives `[(-1,0),(+1,1)]`, `r = 2` gives
`[(-1,1),(-1,0)]`, `r = 3` gives `[(+1,0),(-1,1)]`. -/
theorem GetLocalCoordMap3D_tangential (map : CoordMap) :
    (GetLocalCoordMap3D map 0).map (List.take 2) = Except.ok [(1, 1), (1, 0)] ∧
    (GetLocalCoordMap3D map 1).map (List.take 2) = Except.ok [(-1, 0), (1, 1)] ∧
    (GetLocalCoordMap3D map 2).map (List.take 2) = Except.ok [(-1, 1), (-1, 0)] ∧
    (GetLocalCoordMap3D map 3).map (List.take 2) = Except.ok [(1, 0), (-1, 1)] := by
  obtain ⟨h0, h1, h2, h3⟩ := GetLocalCoordMap3D_eq map
  rw [h0, h1, h2, h3]
  simp [Except.map]

/-- C10 (what the code does): the last entry of the map of `GetLocalCoordMap3D`
is `(-1, 3)` for the four rotation counts, and the last entry of the map of
`GetLocalCoordMap2D` is `(-1, 2)`: the axis index is `Dimension`, not the
zero-based `Dimension - 1`. -/
theorem GetLocalCoordMap_last_entry (map : CoordMap) (nb_rot : Int) :
    (GetLocalCoordMap3D map 0).map List.getLast? = Except.ok (some (-1, 3)) ∧
    (GetLocalCoordMap3D map 1).map List.getLast? = Except.ok (some (-1, 3)) ∧
    (GetLocalCoordMap3D map 2).map List.getLast? = Except.ok (some (-1, 3)) ∧
    (GetLocalCoordMap3D map 3).map List.getLast? = Except.ok (some (-1, 3)) ∧
    (GetLocalCoordMap2D map nb_rot).map List.getLast? = Except.ok (some (-1, 2)) ∧
    GetLocalCoordMap3D [] 2 = Except.ok [(-1, 1), (-1, 0), (-1, 3)] := by
  obtain ⟨h0, h1, h2, h3⟩ := GetLocalCoordMap3D_eq map
  rw [h0, h1, h2, h3, GetLocalCoordMap2D_eq]
  refine ⟨?_, ?_, ?_, ?_, ?_, ?_⟩ <;> rfl


/-! ## `GetChangeOfBasis` -/

/-- C1 (what the code does): at `base_K1 = base_K2 = InitFaceCoord2D(0)`, a
signed permutation matrix, and the map `[(1,0),(1,1)]`, the columns of the
matrix `P` of `GetChangeOfBasis` are `(0,-1)` and `(1,0)`, while the reference
definition of the spec gives the columns `(1,0)` and `(0,-1)`: the scan of the
code stops at the first zero entry of row `j`, not at the nonzero entry of
column `j`. -/
theorem GetChangeOfBasis_differs_from_spec :
    ∃ K P, InitFaceCoord2D 0 (freshMatrix 2) = Except.ok K ∧
      IsSignedPermutation 2 K ∧
      GetChangeOfBasis K K [(1, 0), (1, 1)] (freshMatrix 2) = Except.ok P ∧
      P.toColumns = [[0, -1], [1, 0]] ∧
      specChangeOfBasisColumns 2 K K [(1, 0), (1, 1)] = some [[1, 0], [0, -1]] := by
  refine ⟨_, _, rfl, ?_, rfl, ?_, ?_⟩
  · decide
  · decide
  · decide

/-- C2 (what the code does): for the faces `f1 = f2 = 2` and the rotation count
`2`, the matrix `P` has the rows `(0,0,0)`, `(0,-1,0)`, `(-1,0,-1)`, which is
not a signed permutation matrix. -/
theorem faceChangeOfBasis3D_not_signedPermutation :
    (faceChangeOfBasis3D 2 2 2).map IntMatrix.toRows =
      Except.ok [[0, 0, 0], [0, -1, 0], [-1, 0, -1]] ∧
    (faceChangeOfBasis3D 2 2 2).map (fun P => decide (IsSignedPermutation 3 P)) =
      Except.ok false := by
  decide

/-- For no pair of faces and no rotation count is the matrix `P` of the code a
signed permutation matrix. -/
theorem faceChangeOfBasis3D_never_signedPermutation :
    ∀ f1 f2 : Fin 6, ∀ r : Fin 4,
      (faceChangeOfBasis3D (f1.val : Int) (f2.val : Int) (r.val : Int)).map
        (fun P => decide (IsSignedPermutation 3 P)) = Except.ok false := by
  decide

/-- C3 (what the code does): for the faces `A = B = 2` and the rotation count
`2`, whose map is its own inverse on the tangential axes, the product of the
two matrices of the code has the rows `(0,0,0)`, `(0,1,0)`, `(1,0,1)`, not those
of the identity; and the first matrix has a zero first row, so its product with
any matrix has a zero entry at `(0,0)`. -/
theorem faceChangeOfBasis3D_no_round_trip :
    ∃ P1 P2, faceChangeOfBasis3D 2 2 2 = Except.ok P1 ∧
      faceChangeOfBasis 2 2 [(-1, 1), (-1, 0), (-1, 2)] = Except.ok P2 ∧
      (matMul P1 P2).toRows = [[0, 0, 0], [0, 1, 0], [1, 0, 1]] ∧
      ∀ Q : IntMatrix, (matMul P1 Q).entry 0 0 = 0 := by
  refine ⟨_, _, rfl, rfl, ?_, ?_⟩
  · decide
  · intro Q
    simp [matMul, List.range, List.range.loop, IntMatrix.Zero]

/-- C11 (what the code does): the maps of `GetLocalCoordMap3D` (rotation counts
`0..3`) and of `GetLocalCoordMap2D` have exactly `Dimension` entries, but none
of them is a well-formed coordinate map: the last entry has the target index
`3` in 3D and `2` in 2D, outside `[0, Dimension)`. -/
theorem GetLocalCoordMap_not_wellFormed (map : CoordMap) (nb_rot : Int) :
    (GetLocalCoordMap3D map 0).map (fun m => (m.length, decide (IsWellFormedCoordMap 3 m))) =
      Except.ok (3, false) ∧
    (GetLocalCoordMap3D map 1).map (fun m => (m.length, decide (IsWellFormedCoordMap 3 m))) =
      Except.ok (3, false) ∧
    (GetLocalCoordMap3D map 2).map (fun m => (m.length, decide (IsWellFormedCoordMap 3 m))) =
      Except.ok (3, false) ∧
    (GetLocalCoordMap3D map 3).map (fun m => (m.length, decide (IsWellFormedCoordMap 3 m))) =
      Except.ok (3, false) ∧
    (GetLocalCoordMap2D map nb_rot).map
      (fun m => (m.length, decide (IsWellFormedCoordMap 2 m))) = Except.ok (2, false) := by
  obtain ⟨h0, h1, h2, h3⟩ := GetLocalCoordMap3D_eq map
  rw [h0, h1, h2, h3, GetLocalCoordMap2D_eq]
  refine ⟨?_, ?_, ?_, ?_, ?_⟩ <;> decide

/-- C12: `GetLocalCoordMap2D` ignores its rotation count. For every integer
`nb_rot` (zero, nonzero, negative) and whatever the prior content of the vector,
it succeeds and returns the fixed two-entry map `[(-1,1),(-1,2)]`; so any two
calls return the same map. -/
theorem GetLocalCoordMap2D_ignores_rotation (map map2 : CoordMap) (nb_rot nb_rot2 : Int) :
    GetLocalCoordMap2D map nb_rot = Except.ok [(-1, 1), (-1, 2)] ∧
    GetLocalCoordMap2D map nb_rot = GetLocalCoordMap2D map2 nb_rot2 ∧
    GetLocalCoordMap2D map 0 = Except.ok [(-1, 1), (-1, 2)] ∧
    GetLocalCoordMap2D map 7 = Except.ok [(-1, 1), (-1, 2)] ∧
    GetLocalCoordMap2D map (-3) = Except.ok [(-1, 1), (-1, 2)] := by
  simp only [GetLocalCoordMap2D_eq, and_self]

/-- C13: `GetLocalCoordMap3D` fails with an error if and only if the rotation
count is outside `[0,4)`: it calls `mfem_error` exactly for those counts, it
returns a map exactly for `nb_rot` in `{0,1,2,3}`, and it fails at `4` and at
`-1`. -/
theorem GetLocalCoordMap3D_fails_iff (map : CoordMap) (nb_rot : Int) :
    (GetLocalCoordMap3D map nb_rot = Except.error Failure.mfemError ↔
      ¬ (0 ≤ nb_rot ∧ nb_rot < 4)) ∧
    ((∃ m, GetLocalCoordMap3D map nb_rot = Except.ok m) ↔ (0 ≤ nb_rot ∧ nb_rot < 4)) ∧
    GetLocalCoordMap3D map 4 = Except.error Failure.mfemError ∧
    GetLocalCoordMap3D map (-1) = Except.error Failure.mfemError := by
  obtain ⟨a, b, c, h⟩ := resize_three map
  have hout : ∀ r : Int, ¬ (0 ≤ r ∧ r < 4) →
      GetLocalCoordMap3D map r = Except.error Failure.mfemError := by
    intro r hr
    have n0 : r ≠ 0 := by omega
    have n1 : r ≠ 1 := by omega
    have n2 : r ≠ 2 := by omega
    have n3 : r ≠ 3 := by omega
    simp [GetLocalCoordMap3D, vecSet, h, bind, Except.bind, mfem_error, n0, n1, n2, n3]
  have hin : (0 ≤ nb_rot ∧ nb_rot < 4) → ∃ m, GetLocalCoordMap3D map nb_rot = Except.ok m := by
    intro hr
    obtain ⟨h0, h1, h2, h3⟩ := GetLocalCoordMap3D_eq map
    have hc : nb_rot = 0 ∨ nb_rot = 1 ∨ nb_rot = 2 ∨ nb_rot = 3 := by omega
    rcases hc with rfl | rfl | rfl | rfl
    · exact ⟨_, h0⟩
    · exact ⟨_, h1⟩
    · exact ⟨_, h2⟩
    · exact ⟨_, h3⟩
  refine ⟨?_, ?_, hout 4 (by omega), hout (-1) (by omega)⟩
  · constructor
    · intro he hr
      obtain ⟨m, hm⟩ := hin hr
      rw [hm] at he
      exact absurd he (by simp)
    · exact hout nb_rot
  · constructor
    · rintro ⟨m, hm⟩
      by_contra hr
      rw [hout nb_rot hr] at hm
      exact absurd hm (by simp)
    · exact hin


/-! ## Bounds of the accesses of `GetChangeOfBasis` -/

/-- An index inside the vector can be read. -/
theorem vecAt_ok (map : CoordMap) (i : Nat) (h : i < map.length) :
    ∃ p, vecAt map i = Except.ok p := by
  unfold vecAt
  rw [List.get?_eq_get h]
  exact ⟨_, rfl⟩

/-- C14 (as stated, refuted): `[[1,1],[0,0]]` has exactly one nonzero entry in
each column, yet the scan of `GetChangeOfBasis` for `j = 0` reads `base_K2(0,2)`,
outside the matrix, and the call fails; so the index search does not stay in
bounds for every matrix with one nonzero entry per column. -/
theorem scan_out_of_bounds_counterexample :
    HasOneNonzeroPerColumn 2 (IntMatrix.ofRows 2 [[1, 1], [0, 0]]) ∧
    whileScan (IntMatrix.ofRows 2 [[1, 1], [0, 0]]) 0
      ((IntMatrix.ofRows 2 [[1, 1], [0, 0]]).width + 1) 0 =
      Except.error Failure.outOfBounds ∧
    (GetChangeOfBasis (IntMatrix.ofRows 2 [[1, 0], [0, 1]]) (IntMatrix.ofRows 2 [[1, 1], [0, 0]])
      [(1, 0), (1, 1)] (freshMatrix 2)).map IntMatrix.toRows =
      Except.error Failure.outOfBounds ∧
    ¬ (∀ (d : Nat) (base_K2 : IntMatrix) (map : CoordMap), (d = 2 ∨ d = 3) →
        HasOneNonzeroPerColumn d base_K2 → map.length = d →
        ∀ j < d, ∃ i < d, whileScan base_K2 j (base_K2.width + 1) 0 = Except.ok i) := by
  refine ⟨by decide, by decide, by decide, ?_⟩
  intro hall
  obtain ⟨i, _, hs⟩ := hall 2 (IntMatrix.ofRows 2 [[1, 1], [0, 0]]) [(1, 0), (1, 1)]
    (Or.inl rfl) (by decide) rfl 0 (by decide)
  have hoob : whileScan (IntMatrix.ofRows 2 [[1, 1], [0, 0]]) 0
      ((IntMatrix.ofRows 2 [[1, 1], [0, 0]]).width + 1) 0 =
      Except.error Failure.outOfBounds := by decide
  rw [hoob] at hs
  exact absurd hs (by simp)

/-- C14 (amended): for every dimension `d` in `{2,3}`, every `d × d` integer
matrix `base_K2` with exactly one nonzero entry per column and per row, and
every map of length `d`, the scan ends for each `j` in `[0,d)` at an index
`i < d`, and `map[i]` exists: the loop reads neither `base_K2` nor `map` past
the end. -/
theorem scan_in_bounds (d : Nat) (base_K2 : IntMatrix) (map : CoordMap)
    (hd : d = 2 ∨ d = 3)
    (hK2 : HasOneNonzeroPerColumn d base_K2 ∧ HasOneNonzeroPerRow d base_K2)
    (hmap : map.length = d) (j : Nat) (hj : j < d) :
    ∃ i < d, whileScan base_K2 j (base_K2.width + 1) 0 = Except.ok i ∧
      ∃ p, vecAt map i = Except.ok p := by
  obtain ⟨⟨hh, hw, _⟩, hrow⟩ := hK2
  obtain ⟨c, hc, hne, hz⟩ := hrow j hj
  have hd2 : 2 ≤ d := by omega
  by_cases hc0 : c = 0
  · subst hc0
    have h1 : base_K2.entry j 1 = 0 := hz 1 (by omega) (by omega)
    refine ⟨1, by omega, ?_, vecAt_ok map 1 (by omega)⟩
    have hr0 : base_K2.inRange j 0 = true := by
      simp [IntMatrix.inRange, hh, hw]; omega
    have hr1 : base_K2.inRange j ((0 : Nat) + 1 : Nat) = true := by
      simp [IntMatrix.inRange, hh, hw]; omega
    rcases hd with rfl | rfl <;>
      simp [whileScan, IntMatrix.read, hw, hr0, hr1, hne, h1, bind, Except.bind] <;>
      simp_all [IntMatrix.inRange]
  · have h0 : base_K2.entry j 0 = 0 := hz 0 (by omega) (by omega)
    refine ⟨0, by omega, ?_, vecAt_ok map 0 (by omega)⟩
    have hr0 : base_K2.inRange j 0 = true := by
      simp [IntMatrix.inRange, hh, hw]; omega
    rcases hd with rfl | rfl <;>
      simp [whileScan, IntMatrix.read, hw, hr0, h0, bind, Except.bind]

/-- The theorem `scan_in_bounds` at `d = 2`, `base_K2 = [[0,1],[-1,0]]`, the map
`[(1,0),(1,1)]` and `j = 0`. -/
theorem scan_in_bounds_witness :
    ∃ i < 2,
      whileScan (IntMatrix.ofRows 2 [[0, 1], [-1, 0]]) 0
        ((IntMatrix.ofRows 2 [[0, 1], [-1, 0]]).width + 1) 0 = Except.ok i ∧
      ∃ p, vecAt [(1, 0), (1, 1)] i = Except.ok p :=
  scan_in_bounds 2 (IntMatrix.ofRows 2 [[0, 1], [-1, 0]]) [(1, 0), (1, 1)] (Or.inl rfl)
    ⟨by decide, by decide⟩ rfl 0 (by decide)

/-- C15: for every pair of valid 3D face ids `f1`, `f2` in `[0,6)` and every
rotation count `r` in `[0,4)`, `GetChangeOfBasis(InitFaceCoord3D(f1),
InitFaceCoord3D(f2), GetLocalCoordMap3D(r))` performs only in-range accesses:
the call returns a matrix (no access fails), for each `j` the scan stops at an
index `i < 3`, and the column index `ind = map[i].second` is in `[0,3)`. -/
theorem faceChangeOfBasis3D_in_range (f1 f2 r : Int)
    (hf1 : 0 ≤ f1 ∧ f1 < 6) (hf2 : 0 ≤ f2 ∧ f2 < 6) (hr : 0 ≤ r ∧ r < 4) :
    ∃ K1 K2 map P, InitFaceCoord3D f1 (freshMatrix 3) = Except.ok K1 ∧
      InitFaceCoord3D f2 (freshMatrix 3) = Except.ok K2 ∧
      GetLocalCoordMap3D [] r = Except.ok map ∧
      GetChangeOfBasis K1 K2 map (freshMatrix 3) = Except.ok P ∧
      ∀ j < 3, ∃ i < 3, whileScan K2 j (K2.width + 1) 0 = Except.ok i ∧
        ∃ p, vecAt map i = Except.ok p ∧ 0 ≤ p.2 ∧ p.2 < 3 := by
  have c1 : f1 = 0 ∨ f1 = 1 ∨ f1 = 2 ∨ f1 = 3 ∨ f1 = 4 ∨ f1 = 5 := by omega
  have c2 : f2 = 0 ∨ f2 = 1 ∨ f2 = 2 ∨ f2 = 3 ∨ f2 = 4 ∨ f2 = 5 := by omega
  have c3 : r = 0 ∨ r = 1 ∨ r = 2 ∨ r = 3 := by omega
  rcases c1 with rfl | rfl | rfl | rfl | rfl | rfl <;>
    rcases c2 with rfl | rfl | rfl | rfl | rfl | rfl <;>
    rcases c3 with rfl | rfl | rfl | rfl <;>
    (refine ⟨_, _, _, _, rfl, rfl, rfl, rfl, ?_⟩
     intro j hj
     have cj : j = 0 ∨ j = 1 ∨ j = 2 := by omega
     rcases cj with rfl | rfl | rfl <;>
       exact ⟨_, by decide, rfl, _, rfl, by decide, by decide⟩)

/-- The theorem `faceChangeOfBasis3D_in_range` at the faces `2`, `4` and the
rotation count `3`. -/
theorem faceChangeOfBasis3D_in_range_witness :
    ∃ K1 K2 map P, InitFaceCoord3D 2 (freshMatrix 3) = Except.ok K1 ∧
      InitFaceCoord3D 4 (freshMatrix 3) = Except.ok K2 ∧
      GetLocalCoordMap3D [] 3 = Except.ok map ∧
      GetChangeOfBasis K1 K2 map (freshMatrix 3) = Except.ok P ∧
      ∀ j < 3, ∃ i < 3, whileScan K2 j (K2.width + 1) 0 = Except.ok i ∧
        ∃ p, vecAt map i = Except.ok p ∧ 0 ≤ p.2 ∧ p.2 < 3 :=
  faceChangeOfBasis3D_in_range 2 4 3 (by decide) (by decide) (by decide)


/-! ## Normals and handedness of the face bases -/

/-- C16 (what the code does): the last column of each face basis. In 3D the six
last columns are the outward normals `-e3, -e2, +e1, +e2, -e1, +e3`; in 2D the
faces `0, 1, 2` give `-e2, +e1, +e2`, but the face `3` (WEST) gives `+e1`, the
same as the face `1` (EAST), not `-e1`. -/
theorem InitFaceCoord_last_column :
    (InitFaceCoord2D 0 (freshMatrix 2)).map IntMatrix.lastColumn = Except.ok [0, -1] ∧
    (InitFaceCoord2D 1 (freshMatrix 2)).map IntMatrix.lastColumn = Except.ok [1, 0] ∧
    (InitFaceCoord2D 2 (freshMatrix 2)).map IntMatrix.lastColumn = Except.ok [0, 1] ∧
    (InitFaceCoord2D 3 (freshMatrix 2)).map IntMatrix.lastColumn = Except.ok [1, 0] ∧
    (InitFaceCoord3D 0 (freshMatrix 3)).map IntMatrix.lastColumn = Except.ok [0, 0, -1] ∧
    (InitFaceCoord3D 1 (freshMatrix 3)).map IntMatrix.lastColumn = Except.ok [0, -1, 0] ∧
    (InitFaceCoord3D 2 (freshMatrix 3)).map IntMatrix.lastColumn = Except.ok [1, 0, 0] ∧
    (InitFaceCoord3D 3 (freshMatrix 3)).map IntMatrix.lastColumn = Except.ok [0, 1, 0] ∧
    (InitFaceCoord3D 4 (freshMatrix 3)).map IntMatrix.lastColumn = Except.ok [-1, 0, 0] ∧
    (InitFaceCoord3D 5 (freshMatrix 3)).map IntMatrix.lastColumn = Except.ok [0, 0, 1] := by
  decide

/-- C17: for every valid 3D face id `f` in `[0,6)`, and whatever the prior
entries of the `3 × 3` output matrix, `InitFaceCoord3D(f)` is a proper signed
permutation matrix: exactly one entry of value `1` or `-1` in every row and
every column, and determinant `+1`. -/
theorem InitFaceCoord3D_proper (base : IntMatrix) (face_id : Int)
    (hbase : base.height = 3 ∧ base.width = 3) (h0 : 0 ≤ face_id) (h6 : face_id < 6) :
    ∃ M, InitFaceCoord3D face_id base = Except.ok M ∧ IsSignedPermutation 3 M ∧
      det3 M = 1 := by
  obtain ⟨hh, hw⟩ := hbase
  have hc : face_id = 0 ∨ face_id = 1 ∨ face_id = 2 ∨ face_id = 3 ∨ face_id = 4 ∨
      face_id = 5 := by omega
  rcases hc with rfl | rfl | rfl | rfl | rfl | rfl <;>
    simp [InitFaceCoord3D, IntMatrix.write, IntMatrix.Zero, IntMatrix.inRange, hh, hw,
      bind, Except.bind] <;>
    decide

/-- The theorem `InitFaceCoord3D_proper` at the face `4` and an output matrix
filled with `7`. -/
theorem InitFaceCoord3D_proper_witness :
    ∃ M, InitFaceCoord3D 4 (IntMatrix.ofRows 3 [[7, 7, 7], [7, 7, 7], [7, 7, 7]]) =
      Except.ok M ∧ IsSignedPermutation 3 M ∧ det3 M = 1 :=
  InitFaceCoord3D_proper (IntMatrix.ofRows 3 [[7, 7, 7], [7, 7, 7], [7, 7, 7]]) 4
    ⟨rfl, rfl⟩ (by decide) (by decide)

/-! ## Decoding, then encoding -/

/-- An accepted packed value is recovered from the decoded pair. -/
theorem GetIdRotInfo_ok_eq (face_info face_id nb_rot : Int)
    (h : GetIdRotInfo face_info = Except.ok (face_id, nb_rot)) :
    face_info = 64 * face_id + 2 * nb_rot := by
  unfold GetIdRotInfo MFEM_ASSERT at h
  by_cases hp : (face_info.tmod 64).tmod 2 = 0
  · simp [hp, bind, Except.bind, pure, Except.pure] at h
    obtain ⟨hf, hr⟩ := h
    have e1 : 2 * (face_info.tmod 64).tdiv 2 = face_info.tmod 64 :=
      Int.mul_tdiv_cancel_of_tmod_eq_zero hp
    have e2 : 64 * face_info.tdiv 64 + face_info.tmod 64 = face_info :=
      Int.tdiv_add_tmod face_info 64
    rw [← hf, ← hr, e1, e2]
  · simp [hp, bind, Except.bind] at h

/-- C18: encoding undoes decoding. For every integer `face_info` (negative ones
included, `/` and `%` truncating) on which `GetIdRotInfo` succeeds with the
result `(face_id, nb_rot)`, `face_info = 64*face_id + 2*nb_rot`; hence any other
input decoded to the same pair is equal to `face_info`. -/
theorem GetIdRotInfo_decode_encode (face_info face_id nb_rot : Int)
    (h : GetIdRotInfo face_info = Except.ok (face_id, nb_rot)) :
    face_info = 64 * face_id + 2 * nb_rot ∧
    ∀ other : Int, GetIdRotInfo other = Except.ok (face_id, nb_rot) → other = face_info := by
  have h1 := GetIdRotInfo_ok_eq face_info face_id nb_rot h
  refine ⟨h1, ?_⟩
  intro other ho
  rw [h1, GetIdRotInfo_ok_eq other face_id nb_rot ho]

/-- The theorem `GetIdRotInfo_decode_encode` at `face_info = -130`, which is
decoded to `(-2, -1)`. -/
theorem GetIdRotInfo_decode_encode_witness :
    GetIdRotInfo (-130) = Except.ok (-2, -1) ∧
    ((-130 : Int) = 64 * (-2) + 2 * (-1) ∧
      ∀ other : Int, GetIdRotInfo other = Except.ok (-2, -1) → other = -130) :=
  ⟨by decide, GetIdRotInfo_decode_encode (-130) (-2) (-1) (by decide)⟩

/-! ## Quarter turns -/

/-- C19: successive rotation counts differ by one fixed quarter turn. With
`M_r` the `2 × 2` matrix of the first two entries of `GetLocalCoordMap3D(r)`
and `Q = [[0,-1],[1,0]]`, `M_1 = Q * M_0`, `M_2 = Q * M_1`, `M_3 = Q * M_2` and
`M_0 = Q * M_3`; and `M_0 = [[0,1],[1,0]]`. -/
theorem GetLocalCoordMap3D_quarter_turn (map : CoordMap) :
    (GetLocalCoordMap3D map 1).map (fun m => (tangentialMatrix m).toRows) =
      (GetLocalCoordMap3D map 0).map
        (fun m => (matMul quarterTurn (tangentialMatrix m)).toRows) ∧
    (GetLocalCoordMap3D map 2).map (fun m => (tangentialMatrix m).toRows) =
      (GetLocalCoordMap3D map 1).map
        (fun m => (matMul quarterTurn (tangentialMatrix m)).toRows) ∧
    (GetLocalCoordMap3D map 3).map (fun m => (tangentialMatrix m).toRows) =
      (GetLocalCoordMap3D map 2).map
        (fun m => (matMul quarterTurn (tangentialMatrix m)).toRows) ∧
    (GetLocalCoordMap3D map 0).map (fun m => (tangentialMatrix m).toRows) =
      (GetLocalCoordMap3D map 3).map
        (fun m => (matMul quarterTurn (tangentialMatrix m)).toRows) ∧
    (GetLocalCoordMap3D map 0).map (fun m => (tangentialMatrix m).toRows) =
      Except.ok [[0, 1], [1, 0]] := by
  obtain ⟨h0, h1, h2, h3⟩ := GetLocalCoordMap3D_eq map
  rw [h0, h1, h2, h3]
  refine ⟨?_, ?_, ?_, ?_, ?_⟩ <;> decide

/-! ## The canonical vectors -/

/-- C20 (what the code does): `getBaseVector2D` returns `e1 = (1,0)` and
`e2 = (0,1)`, of size `2`; `getBaseVector3D` sets the size of `e1` to `2` and
then writes its third component, an access outside the vector, so it returns
no vectors. -/
theorem getBaseVector_result (e1 e2 e3 : Vector) :
    (getBaseVector2D e1 e2).map (fun p => (p.1.toList, p.2.toList)) =
      Except.ok ([1, 0], [0, 1]) ∧
    getBaseVector3D e1 e2 e3 = Except.error Failure.outOfBounds := by
  constructor
  · simp [getBaseVector2D, Vector.write, Vector.SetSize, Vector.toList, bind, Except.bind,
      pure, Except.pure, Except.map, List.range, List.range.loop]
  · simp [getBaseVector3D, Vector.write, Vector.SetSize, bind, Except.bind]

end mfem
